import Mathlib

/-!
Shallow embedding of `welfuture/go-eth2-client`:
  * `api/versionedblockrequest.go` — the versioned signed-beacon-block
    request envelope and its accessor surface, and
  * `api/v1/electra/blockcontents_yaml.go` — the YAML side of the
    block-contents dual-format codec bridge.

Go pointers are modelled as `Option`, Go's `(T, error)` return pairs as
`T × Option ApiErr`, byte slices as `List Nat`, and `uint64` quantities as
`Nat` (the claims only move these values around; no arithmetic overflows).
External payload record types (bellatrix/capella/deneb/electra signed
beacon blocks and their sub-records) are out of scope for the repository
and are modelled as record shells with the fields the accessors touch.
-/

namespace GoEth2

/-- spec.DataVersion: the protocol version tag.  The repository's enum has
six known revisions; the block-request envelope supports the last four and
treats everything else through its `default` branch. -/
inductive DataVersion where
  | phase0
  | altair
  | bellatrix
  | capella
  | deneb
  | electra
deriving DecidableEq, Repr

/-- Errors produced by the envelope accessors: `api.ErrDataMissing`,
`api.ErrUnsupportedVersion`, and an opaque constructor for errors
propagated from external collaborators (hashing). -/
inductive ApiErr where
  | errDataMissing
  | errUnsupportedVersion
  | errOther (msg : String)
deriving DecidableEq, Repr

/-- phase0.Root: a 32-byte root, modelled as its byte list. -/
structure Root where
  bytes : List Nat
deriving DecidableEq, Repr

/-- phase0.Hash32: a 32-byte hash, modelled as its byte list. -/
structure Hash32 where
  bytes : List Nat
deriving DecidableEq, Repr

/-- The zero value `phase0.Hash32{}`. -/
def zeroHash32 : Hash32 := ⟨List.replicate 32 0⟩

/-- The zero value `phase0.Root{}`. -/
def zeroRoot : Root := ⟨List.replicate 32 0⟩

/-- External phase0.Attestation (opaque record shell). -/
structure Phase0Attestation where
  aggregationBits : List Bool
  data : Nat
  signature : Nat
deriving DecidableEq, Repr

/-- External electra.Attestation (opaque record shell; electra restructures
the attestation with committee bits). -/
structure ElectraAttestation where
  aggregationBits : List Bool
  data : Nat
  signature : Nat
  committeeBits : List Bool
deriving DecidableEq, Repr

/-- External phase0.AttesterSlashing (opaque record shell). -/
structure Phase0AttesterSlashing where
  attestation1 : Nat
  attestation2 : Nat
deriving DecidableEq, Repr

/-- External electra.AttesterSlashing (opaque record shell). -/
structure ElectraAttesterSlashing where
  attestation1 : Nat
  attestation2 : Nat
deriving DecidableEq, Repr

/-- External phase0.ProposerSlashing (opaque record shell). -/
structure ProposerSlashing where
  signedHeader1 : Nat
  signedHeader2 : Nat
deriving DecidableEq, Repr

/-- External altair.SyncAggregate (opaque record shell). -/
structure SyncAggregate where
  syncCommitteeBits : List Bool
  syncCommitteeSignature : Nat
deriving DecidableEq, Repr

/-- External bellatrix.ExecutionPayload: only the BlockHash field is read
by the envelope; the rest is opaque. -/
structure BellatrixExecutionPayload where
  blockHash : Hash32
  rest : Nat
deriving DecidableEq, Repr

/-- External capella.ExecutionPayload (same reading as bellatrix). -/
structure CapellaExecutionPayload where
  blockHash : Hash32
  rest : Nat
deriving DecidableEq, Repr

/-- External deneb.ExecutionPayload (used by both deneb and electra
bodies). -/
structure DenebExecutionPayload where
  blockHash : Hash32
  rest : Nat
deriving DecidableEq, Repr

/-- External bellatrix.BeaconBlockBody: the fields the envelope reads.
`proposerSlashings` is a Go slice, `none` modelling a nil slice;
`syncAggregate` and `executionPayload` are pointers. -/
structure BellatrixBeaconBlockBody where
  attestations : List Phase0Attestation
  attesterSlashings : List Phase0AttesterSlashing
  proposerSlashings : Option (List ProposerSlashing)
  syncAggregate : Option SyncAggregate
  executionPayload : Option BellatrixExecutionPayload
deriving DecidableEq, Repr

/-- External capella.BeaconBlockBody (same read surface). -/
structure CapellaBeaconBlockBody where
  attestations : List Phase0Attestation
  attesterSlashings : List Phase0AttesterSlashing
  proposerSlashings : Option (List ProposerSlashing)
  syncAggregate : Option SyncAggregate
  executionPayload : Option CapellaExecutionPayload
deriving DecidableEq, Repr

/-- External deneb.BeaconBlockBody (same read surface; deneb execution
payload). -/
structure DenebBeaconBlockBody where
  attestations : List Phase0Attestation
  attesterSlashings : List Phase0AttesterSlashing
  proposerSlashings : Option (List ProposerSlashing)
  syncAggregate : Option SyncAggregate
  executionPayload : Option DenebExecutionPayload
deriving DecidableEq, Repr

/-- External electra.BeaconBlockBody: electra attestation and
attester-slashing shapes, deneb execution payload. -/
structure ElectraBeaconBlockBody where
  attestations : List ElectraAttestation
  attesterSlashings : List ElectraAttesterSlashing
  proposerSlashings : Option (List ProposerSlashing)
  syncAggregate : Option SyncAggregate
  executionPayload : Option DenebExecutionPayload
deriving DecidableEq, Repr

/-- External bellatrix.BeaconBlock: slot/roots and a pointer to the body. -/
structure BellatrixBeaconBlock where
  slot : Nat
  proposerIndex : Nat
  parentRoot : Root
  stateRoot : Root
  body : Option BellatrixBeaconBlockBody
deriving DecidableEq, Repr

/-- External capella.BeaconBlock. -/
structure CapellaBeaconBlock where
  slot : Nat
  proposerIndex : Nat
  parentRoot : Root
  stateRoot : Root
  body : Option CapellaBeaconBlockBody
deriving DecidableEq, Repr

/-- External deneb.BeaconBlock. -/
structure DenebBeaconBlock where
  slot : Nat
  proposerIndex : Nat
  parentRoot : Root
  stateRoot : Root
  body : Option DenebBeaconBlockBody
deriving DecidableEq, Repr

/-- External electra.BeaconBlock. -/
structure ElectraBeaconBlock where
  slot : Nat
  proposerIndex : Nat
  parentRoot : Root
  stateRoot : Root
  body : Option ElectraBeaconBlockBody
deriving DecidableEq, Repr

/-- External bellatrix.SignedBeaconBlock: a pointer to the message plus a
signature. -/
structure BellatrixSignedBeaconBlock where
  message : Option BellatrixBeaconBlock
  signature : Nat
deriving DecidableEq, Repr

/-- External capella.SignedBeaconBlock. -/
structure CapellaSignedBeaconBlock where
  message : Option CapellaBeaconBlock
  signature : Nat
deriving DecidableEq, Repr

/-- External deneb.SignedBeaconBlock. -/
structure DenebSignedBeaconBlock where
  message : Option DenebBeaconBlock
  signature : Nat
deriving DecidableEq, Repr

/-- External electra.SignedBeaconBlock. -/
structure ElectraSignedBeaconBlock where
  message : Option ElectraBeaconBlock
  signature : Nat
deriving DecidableEq, Repr

/-- Modelled from the spec: spec.VersionedAttestation, the versioned
sub-item wrapper produced element-wise by `Attestations` — "a tag plus one
populated reference to the version-specific sub-item type".  The type
itself lives outside src/; the envelope populates the tag and exactly the
slot matching the tag. -/
structure VersionedAttestation where
  version : DataVersion
  bellatrix : Option Phase0Attestation := none
  capella : Option Phase0Attestation := none
  deneb : Option Phase0Attestation := none
  electra : Option ElectraAttestation := none
deriving DecidableEq, Repr

/-- Modelled from the spec: spec.VersionedAttesterSlashing, the versioned
sub-item wrapper produced element-wise by `AttesterSlashings` (same
tagged-union shape, one level down). -/
structure VersionedAttesterSlashing where
  version : DataVersion
  bellatrix : Option Phase0AttesterSlashing := none
  capella : Option Phase0AttesterSlashing := none
  deneb : Option Phase0AttesterSlashing := none
  electra : Option ElectraAttesterSlashing := none
deriving DecidableEq, Repr

/-- api.VersionedBlockRequest: the versioned envelope — a tag plus one
payload slot per supported revision. -/
structure VersionedBlockRequest where
  version : DataVersion
  bellatrix : Option BellatrixSignedBeaconBlock := none
  capella : Option CapellaSignedBeaconBlock := none
  deneb : Option DenebSignedBeaconBlock := none
  electra : Option ElectraSignedBeaconBlock := none
deriving DecidableEq, Repr

/-- VersionedBlockRequest.Slot: dispatch on the tag, require payload and
message present, return the message's slot; `(0, ErrDataMissing)` on an
absent link, `(0, ErrUnsupportedVersion)` on an unknown tag. -/
def VersionedBlockRequest.Slot (v : VersionedBlockRequest) : Nat × Option ApiErr :=
  match v.version with
  | .bellatrix =>
    match v.bellatrix with
    | none => (0, some .errDataMissing)
    | some sb =>
      match sb.message with
      | none => (0, some .errDataMissing)
      | some m => (m.slot, none)
  | .capella =>
    match v.capella with
    | none => (0, some .errDataMissing)
    | some sb =>
      match sb.message with
      | none => (0, some .errDataMissing)
      | some m => (m.slot, none)
  | .deneb =>
    match v.deneb with
    | none => (0, some .errDataMissing)
    | some sb =>
      match sb.message with
      | none => (0, some .errDataMissing)
      | some m => (m.slot, none)
  | .electra =>
    match v.electra with
    | none => (0, some .errDataMissing)
    | some sb =>
      match sb.message with
      | none => (0, some .errDataMissing)
      | some m => (m.slot, none)
  | _ => (0, some .errUnsupportedVersion)

/-- VersionedBlockRequest.ExecutionBlockHash: requires payload → message →
body → execution-payload all present, then returns the execution payload's
BlockHash; `(Hash32{}, ErrDataMissing)` on the first absent link,
`(Hash32{}, ErrUnsupportedVersion)` on an unknown tag. -/
def VersionedBlockRequest.ExecutionBlockHash (v : VersionedBlockRequest) :
    Hash32 × Option ApiErr :=
  match v.version with
  | .bellatrix =>
    match v.bellatrix with
    | none => (zeroHash32, some .errDataMissing)
    | some sb =>
      match sb.message with
      | none => (zeroHash32, some .errDataMissing)
      | some m =>
        match m.body with
        | none => (zeroHash32, some .errDataMissing)
        | some b =>
          match b.executionPayload with
          | none => (zeroHash32, some .errDataMissing)
          | some p => (p.blockHash, none)
  | .capella =>
    match v.capella with
    | none => (zeroHash32, some .errDataMissing)
    | some sb =>
      match sb.message with
      | none => (zeroHash32, some .errDataMissing)
      | some m =>
        match m.body with
        | none => (zeroHash32, some .errDataMissing)
        | some b =>
          match b.executionPayload with
          | none => (zeroHash32, some .errDataMissing)
          | some p => (p.blockHash, none)
  | .deneb =>
    match v.deneb with
    | none => (zeroHash32, some .errDataMissing)
    | some sb =>
      match sb.message with
      | none => (zeroHash32, some .errDataMissing)
      | some m =>
        match m.body with
        | none => (zeroHash32, some .errDataMissing)
        | some b =>
          match b.executionPayload with
          | none => (zeroHash32, some .errDataMissing)
          | some p => (p.blockHash, none)
  | .electra =>
    match v.electra with
    | none => (zeroHash32, some .errDataMissing)
    | some sb =>
      match sb.message with
      | none => (zeroHash32, some .errDataMissing)
      | some m =>
        match m.body with
        | none => (zeroHash32, some .errDataMissing)
        | some b =>
          match b.executionPayload with
          | none => (zeroHash32, some .errDataMissing)
          | some p => (p.blockHash, none)
  | _ => (zeroHash32, some .errUnsupportedVersion)

/-- VersionedBlockRequest.Attestations: requires payload, message and body
present, then builds a new sequence the length of the body's attestation
collection, wrapping the i-th attestation in a VersionedAttestation
carrying the envelope's tag.  `(nil, ErrDataMissing)` on an absent link,
`(nil, ErrUnsupportedVersion)` on an unknown tag. -/
def VersionedBlockRequest.Attestations (v : VersionedBlockRequest) :
    Option (List VersionedAttestation) × Option ApiErr :=
  match v.version with
  | .bellatrix =>
    match v.bellatrix with
    | none => (none, some .errDataMissing)
    | some sb =>
      match sb.message with
      | none => (none, some .errDataMissing)
      | some m =>
        match m.body with
        | none => (none, some .errDataMissing)
        | some b =>
          (some (b.attestations.map fun a =>
            { version := .bellatrix, bellatrix := some a }), none)
  | .capella =>
    match v.capella with
    | none => (none, some .errDataMissing)
    | some sb =>
      match sb.message with
      | none => (none, some .errDataMissing)
      | some m =>
        match m.body with
        | none => (none, some .errDataMissing)
        | some b =>
          (some (b.attestations.map fun a =>
            { version := .capella, capella := some a }), none)
  | .deneb =>
    match v.deneb with
    | none => (none, some .errDataMissing)
    | some sb =>
      match sb.message with
      | none => (none, some .errDataMissing)
      | some m =>
        match m.body with
        | none => (none, some .errDataMissing)
        | some b =>
          (some (b.attestations.map fun a =>
            { version := .deneb, deneb := some a }), none)
  | .electra =>
    match v.electra with
    | none => (none, some .errDataMissing)
    | some sb =>
      match sb.message with
      | none => (none, some .errDataMissing)
      | some m =>
        match m.body with
        | none => (none, some .errDataMissing)
        | some b =>
          (some (b.attestations.map fun a =>
            { version := .electra, electra := some a }), none)
  | _ => (none, some .errUnsupportedVersion)

/-- VersionedBlockRequest.Root: requires payload and message present, then
delegates to the external hashing collaborator on the message (passed here
as one function per version, propagated unchanged);
`(Root{}, ErrDataMissing)` / `(Root{}, ErrUnsupportedVersion)` otherwise. -/
def VersionedBlockRequest.Root
    (htrBellatrix : BellatrixBeaconBlock → Root × Option ApiErr)
    (htrCapella : CapellaBeaconBlock → Root × Option ApiErr)
    (htrDeneb : DenebBeaconBlock → Root × Option ApiErr)
    (htrElectra : ElectraBeaconBlock → Root × Option ApiErr)
    (v : VersionedBlockRequest) : Root × Option ApiErr :=
  match v.version with
  | .bellatrix =>
    match v.bellatrix with
    | none => (zeroRoot, some .errDataMissing)
    | some sb =>
      match sb.message with
      | none => (zeroRoot, some .errDataMissing)
      | some m => htrBellatrix m
  | .capella =>
    match v.capella with
    | none => (zeroRoot, some .errDataMissing)
    | some sb =>
      match sb.message with
      | none => (zeroRoot, some .errDataMissing)
      | some m => htrCapella m
  | .deneb =>
    match v.deneb with
    | none => (zeroRoot, some .errDataMissing)
    | some sb =>
      match sb.message with
      | none => (zeroRoot, some .errDataMissing)
      | some m => htrDeneb m
  | .electra =>
    match v.electra with
    | none => (zeroRoot, some .errDataMissing)
    | some sb =>
      match sb.message with
      | none => (zeroRoot, some .errDataMissing)
      | some m => htrElectra m
  | _ => (zeroRoot, some .errUnsupportedVersion)

/-- VersionedBlockRequest.BodyRoot: requires payload, message and body
present, then delegates to the external hashing collaborator on the body;
`(Root{}, ErrDataMissing)` / `(Root{}, ErrUnsupportedVersion)` otherwise. -/
def VersionedBlockRequest.BodyRoot
    (htrBellatrixBody : BellatrixBeaconBlockBody → GoEth2.Root × Option ApiErr)
    (htrCapellaBody : CapellaBeaconBlockBody → GoEth2.Root × Option ApiErr)
    (htrDenebBody : DenebBeaconBlockBody → GoEth2.Root × Option ApiErr)
    (htrElectraBody : ElectraBeaconBlockBody → GoEth2.Root × Option ApiErr)
    (v : VersionedBlockRequest) : GoEth2.Root × Option ApiErr :=
  match v.version with
  | .bellatrix =>
    match v.bellatrix with
    | none => (zeroRoot, some .errDataMissing)
    | some sb =>
      match sb.message with
      | none => (zeroRoot, some .errDataMissing)
      | some m =>
        match m.body with
        | none => (zeroRoot, some .errDataMissing)
        | some b => htrBellatrixBody b
  | .capella =>
    match v.capella with
    | none => (zeroRoot, some .errDataMissing)
    | some sb =>
      match sb.message with
      | none => (zeroRoot, some .errDataMissing)
      | some m =>
        match m.body with
        | none => (zeroRoot, some .errDataMissing)
        | some b => htrCapellaBody b
  | .deneb =>
    match v.deneb with
    | none => (zeroRoot, some .errDataMissing)
    | some sb =>
      match sb.message with
      | none => (zeroRoot, some .errDataMissing)
      | some m =>
        match m.body with
        | none => (zeroRoot, some .errDataMissing)
        | some b => htrDenebBody b
  | .electra =>
    match v.electra with
    | none => (zeroRoot, some .errDataMissing)
    | some sb =>
      match sb.message with
      | none => (zeroRoot, some .errDataMissing)
      | some m =>
        match m.body with
        | none => (zeroRoot, some .errDataMissing)
        | some b => htrElectraBody b
  | _ => (zeroRoot, some .errUnsupportedVersion)

/-- VersionedBlockRequest.ParentRoot: requires payload and message
present, returns the message's ParentRoot. -/
def VersionedBlockRequest.ParentRoot (v : VersionedBlockRequest) :
    GoEth2.Root × Option ApiErr :=
  match v.version with
  | .bellatrix =>
    match v.bellatrix with
    | none => (zeroRoot, some .errDataMissing)
    | some sb =>
      match sb.message with
      | none => (zeroRoot, some .errDataMissing)
      | some m => (m.parentRoot, none)
  | .capella =>
    match v.capella with
    | none => (zeroRoot, some .errDataMissing)
    | some sb =>
      match sb.message with
      | none => (zeroRoot, some .errDataMissing)
      | some m => (m.parentRoot, none)
  | .deneb =>
    match v.deneb with
    | none => (zeroRoot, some .errDataMissing)
    | some sb =>
      match sb.message with
      | none => (zeroRoot, some .errDataMissing)
      | some m => (m.parentRoot, none)
  | .electra =>
    match v.electra with
    | none => (zeroRoot, some .errDataMissing)
    | some sb =>
      match sb.message with
      | none => (zeroRoot, some .errDataMissing)
      | some m => (m.parentRoot, none)
  | _ => (zeroRoot, some .errUnsupportedVersion)

/-- VersionedBlockRequest.StateRoot: requires payload and message present,
returns the message's StateRoot. -/
def VersionedBlockRequest.StateRoot (v : VersionedBlockRequest) :
    GoEth2.Root × Option ApiErr :=
  match v.version with
  | .bellatrix =>
    match v.bellatrix with
    | none => (zeroRoot, some .errDataMissing)
    | some sb =>
      match sb.message with
      | none => (zeroRoot, some .errDataMissing)
      | some m => (m.stateRoot, none)
  | .capella =>
    match v.capella with
    | none => (zeroRoot, some .errDataMissing)
    | some sb =>
      match sb.message with
      | none => (zeroRoot, some .errDataMissing)
      | some m => (m.stateRoot, none)
  | .deneb =>
    match v.deneb with
    | none => (zeroRoot, some .errDataMissing)
    | some sb =>
      match sb.message with
      | none => (zeroRoot, some .errDataMissing)
      | some m => (m.stateRoot, none)
  | .electra =>
    match v.electra with
    | none => (zeroRoot, some .errDataMissing)
    | some sb =>
      match sb.message with
      | none => (zeroRoot, some .errDataMissing)
      | some m => (m.stateRoot, none)
  | _ => (zeroRoot, some .errUnsupportedVersion)

/-- VersionedBlockRequest.AttesterSlashings: requires payload, message and
body present, then builds a new sequence the length of the body's
attester-slashing collection, wrapping the i-th element in a
VersionedAttesterSlashing carrying the envelope's tag. -/
def VersionedBlockRequest.AttesterSlashings (v : VersionedBlockRequest) :
    Option (List VersionedAttesterSlashing) × Option ApiErr :=
  match v.version with
  | .bellatrix =>
    match v.bellatrix with
    | none => (none, some .errDataMissing)
    | some sb =>
      match sb.message with
      | none => (none, some .errDataMissing)
      | some m =>
        match m.body with
        | none => (none, some .errDataMissing)
        | some b =>
          (some (b.attesterSlashings.map fun a =>
            { version := .bellatrix, bellatrix := some a }), none)
  | .capella =>
    match v.capella with
    | none => (none, some .errDataMissing)
    | some sb =>
      match sb.message with
      | none => (none, some .errDataMissing)
      | some m =>
        match m.body with
        | none => (none, some .errDataMissing)
        | some b =>
          (some (b.attesterSlashings.map fun a =>
            { version := .capella, capella := some a }), none)
  | .deneb =>
    match v.deneb with
    | none => (none, some .errDataMissing)
    | some sb =>
      match sb.message with
      | none => (none, some .errDataMissing)
      | some m =>
        match m.body with
        | none => (none, some .errDataMissing)
        | some b =>
          (some (b.attesterSlashings.map fun a =>
            { version := .deneb, deneb := some a }), none)
  | .electra =>
    match v.electra with
    | none => (none, some .errDataMissing)
    | some sb =>
      match sb.message with
      | none => (none, some .errDataMissing)
      | some m =>
        match m.body with
        | none => (none, some .errDataMissing)
        | some b =>
          (some (b.attesterSlashings.map fun a =>
            { version := .electra, electra := some a }), none)
  | _ => (none, some .errUnsupportedVersion)

/-- VersionedBlockRequest.ProposerSlashings: requires payload, message and
body present, then returns the body's proposer-slashing slice as-is (a nil
slice, modelled `none`, is returned with a nil error). -/
def VersionedBlockRequest.ProposerSlashings (v : VersionedBlockRequest) :
    Option (List ProposerSlashing) × Option ApiErr :=
  match v.version with
  | .bellatrix =>
    match v.bellatrix with
    | none => (none, some .errDataMissing)
    | some sb =>
      match sb.message with
      | none => (none, some .errDataMissing)
      | some m =>
        match m.body with
        | none => (none, some .errDataMissing)
        | some b => (b.proposerSlashings, none)
  | .capella =>
    match v.capella with
    | none => (none, some .errDataMissing)
    | some sb =>
      match sb.message with
      | none => (none, some .errDataMissing)
      | some m =>
        match m.body with
        | none => (none, some .errDataMissing)
        | some b => (b.proposerSlashings, none)
  | .deneb =>
    match v.deneb with
    | none => (none, some .errDataMissing)
    | some sb =>
      match sb.message with
      | none => (none, some .errDataMissing)
      | some m =>
        match m.body with
        | none => (none, some .errDataMissing)
        | some b => (b.proposerSlashings, none)
  | .electra =>
    match v.electra with
    | none => (none, some .errDataMissing)
    | some sb =>
      match sb.message with
      | none => (none, some .errDataMissing)
      | some m =>
        match m.body with
        | none => (none, some .errDataMissing)
        | some b => (b.proposerSlashings, none)
  | _ => (none, some .errUnsupportedVersion)

/-- VersionedBlockRequest.SyncAggregate: requires payload, message and
body present, then returns the body's sync-aggregate pointer as-is (a nil
pointer is returned with a nil error). -/
def VersionedBlockRequest.SyncAggregate (v : VersionedBlockRequest) :
    Option GoEth2.SyncAggregate × Option ApiErr :=
  match v.version with
  | .bellatrix =>
    match v.bellatrix with
    | none => (none, some .errDataMissing)
    | some sb =>
      match sb.message with
      | none => (none, some .errDataMissing)
      | some m =>
        match m.body with
        | none => (none, some .errDataMissing)
        | some b => (b.syncAggregate, none)
  | .capella =>
    match v.capella with
    | none => (none, some .errDataMissing)
    | some sb =>
      match sb.message with
      | none => (none, some .errDataMissing)
      | some m =>
        match m.body with
        | none => (none, some .errDataMissing)
        | some b => (b.syncAggregate, none)
  | .deneb =>
    match v.deneb with
    | none => (none, some .errDataMissing)
    | some sb =>
      match sb.message with
      | none => (none, some .errDataMissing)
      | some m =>
        match m.body with
        | none => (none, some .errDataMissing)
        | some b => (b.syncAggregate, none)
  | .electra =>
    match v.electra with
    | none => (none, some .errDataMissing)
    | some sb =>
      match sb.message with
      | none => (none, some .errDataMissing)
      | some m =>
        match m.body with
        | none => (none, some .errDataMissing)
        | some b => (b.syncAggregate, none)
  | _ => (none, some .errUnsupportedVersion)

/-- VersionedBlockRequest.String: for a known tag, return the empty string
when the payload slot is nil (the message is NOT checked), else delegate
to the payload's own string representation (an external method, passed as
one function per version); return the fixed "unsupported version" string
on an unknown tag. -/
def VersionedBlockRequest.String
    (strBellatrix : BellatrixSignedBeaconBlock → String)
    (strCapella : CapellaSignedBeaconBlock → String)
    (strDeneb : DenebSignedBeaconBlock → String)
    (strElectra : ElectraSignedBeaconBlock → String)
    (v : VersionedBlockRequest) : String :=
  match v.version with
  | .bellatrix =>
    match v.bellatrix with
    | none => ""
    | some sb => strBellatrix sb
  | .capella =>
    match v.capella with
    | none => ""
    | some sb => strCapella sb
  | .deneb =>
    match v.deneb with
    | none => ""
    | some sb => strDeneb sb
  | .electra =>
    match v.electra with
    | none => ""
    | some sb => strElectra sb
  | _ => "unsupported version"

/-- Derived bookkeeping (not in the source): the bellatrix
payload → message chain, `none` iff some link on it is nil. -/
def VersionedBlockRequest.bellatrixMessage (v : VersionedBlockRequest) :
    Option BellatrixBeaconBlock :=
  v.bellatrix.bind (·.message)

/-- Derived bookkeeping: the capella payload → message chain. -/
def VersionedBlockRequest.capellaMessage (v : VersionedBlockRequest) :
    Option CapellaBeaconBlock :=
  v.capella.bind (·.message)

/-- Derived bookkeeping: the deneb payload → message chain. -/
def VersionedBlockRequest.denebMessage (v : VersionedBlockRequest) :
    Option DenebBeaconBlock :=
  v.deneb.bind (·.message)

/-- Derived bookkeeping: the electra payload → message chain. -/
def VersionedBlockRequest.electraMessage (v : VersionedBlockRequest) :
    Option ElectraBeaconBlock :=
  v.electra.bind (·.message)

/-- Derived bookkeeping: the bellatrix payload → message → body chain,
`none` iff some link on it is nil. -/
def VersionedBlockRequest.bellatrixBody (v : VersionedBlockRequest) :
    Option BellatrixBeaconBlockBody :=
  (v.bellatrixMessage).bind (·.body)

/-- Derived bookkeeping: the capella payload → message → body chain. -/
def VersionedBlockRequest.capellaBody (v : VersionedBlockRequest) :
    Option CapellaBeaconBlockBody :=
  (v.capellaMessage).bind (·.body)

/-- Derived bookkeeping: the deneb payload → message → body chain. -/
def VersionedBlockRequest.denebBody (v : VersionedBlockRequest) :
    Option DenebBeaconBlockBody :=
  (v.denebMessage).bind (·.body)

/-- Derived bookkeeping: the electra payload → message → body chain. -/
def VersionedBlockRequest.electraBody (v : VersionedBlockRequest) :
    Option ElectraBeaconBlockBody :=
  (v.electraMessage).bind (·.body)

/-- Derived bookkeeping: the bellatrix payload → message → body →
execution-payload chain, `none` iff at least one of the four links is
nil. -/
def VersionedBlockRequest.bellatrixExecPayload (v : VersionedBlockRequest) :
    Option BellatrixExecutionPayload :=
  (v.bellatrixBody).bind (·.executionPayload)

/-- Derived bookkeeping: the capella execution-payload chain. -/
def VersionedBlockRequest.capellaExecPayload (v : VersionedBlockRequest) :
    Option CapellaExecutionPayload :=
  (v.capellaBody).bind (·.executionPayload)

/-- Derived bookkeeping: the deneb execution-payload chain. -/
def VersionedBlockRequest.denebExecPayload (v : VersionedBlockRequest) :
    Option DenebExecutionPayload :=
  (v.denebBody).bind (·.executionPayload)

/-- Derived bookkeeping: the electra execution-payload chain. -/
def VersionedBlockRequest.electraExecPayload (v : VersionedBlockRequest) :
    Option DenebExecutionPayload :=
  (v.electraBody).bind (·.executionPayload)

/-! ## The dual-format codec bridge (api/v1/electra/blockcontents_yaml.go) -/

/-- A Go byte slice. -/
abbrev Bytes := List Nat

/-- The double-quote byte `"` . -/
def doubleQuoteByte : Nat := 34

/-- The single-quote byte `'` . -/
def singleQuoteByte : Nat := 39

/-- External deneb.KZGProof: a fixed-size byte array (opaque). -/
structure KZGProof where
  bytes : List Nat
deriving DecidableEq, Repr

/-- External deneb.Blob: a fixed-size byte array (opaque). -/
structure Blob where
  bytes : List Nat
deriving DecidableEq, Repr

/-- Modelled from the spec: api/v1/electra.BlockContents, the Composite
Record — "a payload reference plus two auxiliary ordered sequences of
fixed-size byte arrays (proofs and blobs)".  The struct's own declaration
(blockcontents.go) is outside src/. -/
structure BlockContents where
  block : Option ElectraBeaconBlock
  kzgProofs : List KZGProof
  blobs : List Blob
deriving DecidableEq, Repr

/-- api/v1/electra.blockContentsYAML: the intermediate structure
serialized by MarshalYAML, with field tags `block`, `kzg_proofs`,
`blobs`. -/
structure blockContentsYAML where
  block : Option ElectraBeaconBlock
  kzgProofs : List KZGProof
  blobs : List Blob
deriving DecidableEq, Repr

/-- The YAML field tags of blockContentsYAML, in declaration order:
`yaml:"block"`, `yaml:"kzg_proofs"`, `yaml:"blobs"`. -/
def blockContentsYAMLKeys : List String := ["block", "kzg_proofs", "blobs"]

/-- Modelled from the spec: api/v1/electra.blockContentsJSON, "the same
intermediate structure used by the compact format" — the JSON-side
intermediate struct with the same three fields, declared outside src/. -/
structure blockContentsJSON where
  block : Option ElectraBeaconBlock
  kzgProofs : List KZGProof
  blobs : List Blob
deriving DecidableEq, Repr

/-- bytes.ReplaceAll specialized to a one-byte pattern and a one-byte
replacement, as called in MarshalYAML (`"` → `'`): every occurrence of
`old` is replaced by `new`. -/
def replaceAllByte (bs : Bytes) (old new : Nat) : Bytes :=
  bs.map fun c => if c = old then new else c

/-- errors.Wrap from pkg/errors: the wrapped error renders as
`msg: cause`. -/
def wrapErr (cause msg : String) : String := msg ++ ": " ++ cause

/-- BlockContents.MarshalYAML: build the blockContentsYAML intermediate
from the three fields, serialize it with the external YAML serializer in
flow mode (`yaml.MarshalWithOptions(..., yaml.Flow(true))`, passed here as
a function of the flow flag), return its error unchanged on failure, and
on success replace every double-quote byte with a single-quote byte. -/
def BlockContents.MarshalYAML
    (yamlMarshalWithOptions : Bool → blockContentsYAML → Except String Bytes)
    (b : BlockContents) : Except String Bytes :=
  match yamlMarshalWithOptions true
      { block := b.block, kzgProofs := b.kzgProofs, blobs := b.blobs } with
  | .error e => .error e
  | .ok yamlBytes => .ok (replaceAllByte yamlBytes doubleQuoteByte singleQuoteByte)

/-- BlockContents.UnmarshalYAML: parse the input with the external YAML
deserializer into the blockContentsJSON intermediate (wrapping a parse
failure with "failed to unmarshal YAML"), re-serialize it with the
external JSON serializer (wrapping a failure with "failed to marshal
JSON"), and hand the re-encoded bytes to UnmarshalJSON (an external
method of the same record, declared outside src/), whose result is
returned as produced. -/
def BlockContents.UnmarshalYAML
    (yamlUnmarshal : Bytes → Except String blockContentsJSON)
    (jsonMarshal : blockContentsJSON → Except String Bytes)
    (unmarshalJSON : Bytes → Except String BlockContents)
    (input : Bytes) : Except String BlockContents :=
  match yamlUnmarshal input with
  | .error e => .error (wrapErr e "failed to unmarshal YAML")
  | .ok unmarshaled =>
    match jsonMarshal unmarshaled with
    | .error e => .error (wrapErr e "failed to marshal JSON")
    | .ok marshaled => unmarshalJSON marshaled

/-! ## Sample values used by witnesses -/

/-- A sample root. -/
def sampleRoot : Root := ⟨(List.range 32).map (· + 1)⟩

/-- A second sample root. -/
def sampleRoot2 : Root := ⟨(List.range 32).map (· + 33)⟩

/-- A sample hash. -/
def sampleHash : Hash32 := ⟨(List.range 32).map (· + 65)⟩

/-- A sample phase0 attestation. -/
def sampleAtt : Phase0Attestation :=
  { aggregationBits := [true, false, true], data := 7, signature := 11 }

/-- A second sample phase0 attestation. -/
def sampleAtt2 : Phase0Attestation :=
  { aggregationBits := [false, true], data := 8, signature := 12 }

/-- A sample electra attestation. -/
def sampleElectraAtt : ElectraAttestation :=
  { aggregationBits := [true], data := 9, signature := 13,
    committeeBits := [true, true] }

/-- A sample bellatrix body with every optional sub-structure populated. -/
def sampleBellatrixBody : BellatrixBeaconBlockBody :=
  { attestations := [sampleAtt, sampleAtt2]
    attesterSlashings := [⟨1, 2⟩, ⟨3, 4⟩]
    proposerSlashings := some [⟨5, 6⟩]
    syncAggregate := some ⟨[true, false], 21⟩
    executionPayload := some ⟨sampleHash, 31⟩ }

/-- A sample bellatrix message with the sample body. -/
def sampleBellatrixMessage : BellatrixBeaconBlock :=
  { slot := 12345, proposerIndex := 17, parentRoot := sampleRoot,
    stateRoot := sampleRoot2, body := some sampleBellatrixBody }

/-- A sample signed bellatrix block. -/
def sampleBellatrixSigned : BellatrixSignedBeaconBlock :=
  { message := some sampleBellatrixMessage, signature := 99 }

/-- A sample bellatrix envelope with payload, message, body and execution
payload all present. -/
def sampleBellatrixRequest : VersionedBlockRequest :=
  { version := .bellatrix, bellatrix := some sampleBellatrixSigned }

/-- A sample electra body whose optional sync aggregate is absent and
whose proposer-slashing slice is nil. -/
def sampleElectraBodyNilSub : ElectraBeaconBlockBody :=
  { attestations := [sampleElectraAtt]
    attesterSlashings := [⟨41, 42⟩]
    proposerSlashings := none
    syncAggregate := none
    executionPayload := none }

/-- A sample electra envelope whose body is present but whose optional
sub-structures below the body are absent. -/
def sampleElectraRequestNilSub : VersionedBlockRequest :=
  { version := .electra
    electra := some
      { message := some
          { slot := 777, proposerIndex := 3, parentRoot := sampleRoot,
            stateRoot := sampleRoot2, body := some sampleElectraBodyNilSub }
        signature := 98 } }

/-- A sample bellatrix envelope whose message's body is absent. -/
def sampleBellatrixRequestNoBody : VersionedBlockRequest :=
  { version := .bellatrix
    bellatrix := some
      { message := some
          { slot := 55, proposerIndex := 1, parentRoot := sampleRoot,
            stateRoot := sampleRoot2, body := none }
        signature := 97 } }

/-- An envelope with an unsupported tag (phase0), with a bellatrix payload
populated to show accessors do not inspect it. -/
def samplePhase0Request : VersionedBlockRequest :=
  { version := .phase0
    bellatrix := (sampleBellatrixRequest).bellatrix }

/-! ## Theorems -/

/-- C1: for every VersionedBlockRequest whose Version is not one of
Bellatrix, Capella, Deneb, or Electra, every accessor (Slot,
ExecutionBlockHash, Attestations, Root, BodyRoot, ParentRoot, StateRoot,
AttesterSlashings, ProposerSlashings, SyncAggregate) returns the
UnsupportedVersion error — regardless of the payload slots, so no payload
is inspected — never a zero value with nil error. -/
theorem unsupported_version_every_accessor
    (v : VersionedBlockRequest)
    (hB : v.version ≠ .bellatrix) (hC : v.version ≠ .capella)
    (hD : v.version ≠ .deneb) (hE : v.version ≠ .electra) :
    v.Slot = (0, some .errUnsupportedVersion)
    ∧ v.ExecutionBlockHash = (zeroHash32, some .errUnsupportedVersion)
    ∧ v.Attestations = (none, some .errUnsupportedVersion)
    ∧ (∀ h1 h2 h3 h4, VersionedBlockRequest.Root h1 h2 h3 h4 v
        = (zeroRoot, some .errUnsupportedVersion))
    ∧ (∀ h1 h2 h3 h4, VersionedBlockRequest.BodyRoot h1 h2 h3 h4 v
        = (zeroRoot, some .errUnsupportedVersion))
    ∧ v.ParentRoot = (zeroRoot, some .errUnsupportedVersion)
    ∧ v.StateRoot = (zeroRoot, some .errUnsupportedVersion)
    ∧ v.AttesterSlashings = (none, some .errUnsupportedVersion)
    ∧ v.ProposerSlashings = (none, some .errUnsupportedVersion)
    ∧ v.SyncAggregate = (none, some .errUnsupportedVersion) := by
  obtain ⟨ver, b, c, d, e⟩ := v
  cases ver with
  | phase0 =>
    exact ⟨rfl, rfl, rfl, fun _ _ _ _ => rfl, fun _ _ _ _ => rfl,
      rfl, rfl, rfl, rfl, rfl⟩
  | altair =>
    exact ⟨rfl, rfl, rfl, fun _ _ _ _ => rfl, fun _ _ _ _ => rfl,
      rfl, rfl, rfl, rfl, rfl⟩
  | bellatrix => exact absurd rfl hB
  | capella => exact absurd rfl hC
  | deneb => exact absurd rfl hD
  | electra => exact absurd rfl hE

/-- Witness for C1 at a concrete phase0-tagged envelope whose bellatrix
slot is populated: the accessors still answer UnsupportedVersion. -/
theorem unsupported_version_every_accessor_witness :
    samplePhase0Request.Slot = (0, some .errUnsupportedVersion)
    ∧ samplePhase0Request.SyncAggregate = (none, some .errUnsupportedVersion)
    ∧ samplePhase0Request.ExecutionBlockHash
        = (zeroHash32, some .errUnsupportedVersion) := by
  obtain ⟨h1, h2, h3, _, _, _, _, _, _, h10⟩ :=
    unsupported_version_every_accessor samplePhase0Request
      (by decide) (by decide) (by decide) (by decide)
  exact ⟨h1, h10, h2⟩

/-- C2: for every VersionedBlockRequest with a known version tag whose
corresponding payload slot and its Message are non-nil, Slot returns that
payload's Message.Slot, ParentRoot its Message.ParentRoot, and StateRoot
its Message.StateRoot, each with nil error and equal to the source
field. -/
theorem slot_parent_state_match_message (v : VersionedBlockRequest) :
    (∀ sb m, v.version = .bellatrix → v.bellatrix = some sb →
      sb.message = some m →
      v.Slot = (m.slot, none) ∧ v.ParentRoot = (m.parentRoot, none)
        ∧ v.StateRoot = (m.stateRoot, none))
    ∧ (∀ sb m, v.version = .capella → v.capella = some sb →
      sb.message = some m →
      v.Slot = (m.slot, none) ∧ v.ParentRoot = (m.parentRoot, none)
        ∧ v.StateRoot = (m.stateRoot, none))
    ∧ (∀ sb m, v.version = .deneb → v.deneb = some sb →
      sb.message = some m →
      v.Slot = (m.slot, none) ∧ v.ParentRoot = (m.parentRoot, none)
        ∧ v.StateRoot = (m.stateRoot, none))
    ∧ (∀ sb m, v.version = .electra → v.electra = some sb →
      sb.message = some m →
      v.Slot = (m.slot, none) ∧ v.ParentRoot = (m.parentRoot, none)
        ∧ v.StateRoot = (m.stateRoot, none)) := by
  refine ⟨?_, ?_, ?_, ?_⟩ <;>
    · intro sb m hv hb hm
      refine ⟨?_, ?_, ?_⟩ <;>
        simp [VersionedBlockRequest.Slot, VersionedBlockRequest.ParentRoot,
          VersionedBlockRequest.StateRoot, hv, hb, hm]

/-- Witness for C2 at the concrete bellatrix sample: the accessors answer
the message's literal fields. -/
theorem slot_parent_state_match_message_witness :
    sampleBellatrixRequest.Slot = (12345, none)
    ∧ sampleBellatrixRequest.ParentRoot = (sampleRoot, none)
    ∧ sampleBellatrixRequest.StateRoot = (sampleRoot2, none) :=
  (slot_parent_state_match_message sampleBellatrixRequest).1
    sampleBellatrixSigned sampleBellatrixMessage rfl rfl rfl

/-- C3: for every VersionedBlockRequest with a known version tag,
ExecutionBlockHash returns `(Hash32{}, ErrDataMissing)` if and only if at
least one of payload, message, body, execution-payload on the tag's slot
is nil (the chain helpers are `none` exactly then); when all four links
are present it returns that execution payload's BlockHash with nil
error. -/
theorem execution_block_hash_chain (v : VersionedBlockRequest) :
    (v.version = .bellatrix →
      (v.ExecutionBlockHash = (zeroHash32, some .errDataMissing)
        ↔ v.bellatrixExecPayload = none)
      ∧ ∀ p, v.bellatrixExecPayload = some p →
          v.ExecutionBlockHash = (p.blockHash, none))
    ∧ (v.version = .capella →
      (v.ExecutionBlockHash = (zeroHash32, some .errDataMissing)
        ↔ v.capellaExecPayload = none)
      ∧ ∀ p, v.capellaExecPayload = some p →
          v.ExecutionBlockHash = (p.blockHash, none))
    ∧ (v.version = .deneb →
      (v.ExecutionBlockHash = (zeroHash32, some .errDataMissing)
        ↔ v.denebExecPayload = none)
      ∧ ∀ p, v.denebExecPayload = some p →
          v.ExecutionBlockHash = (p.blockHash, none))
    ∧ (v.version = .electra →
      (v.ExecutionBlockHash = (zeroHash32, some .errDataMissing)
        ↔ v.electraExecPayload = none)
      ∧ ∀ p, v.electraExecPayload = some p →
          v.ExecutionBlockHash = (p.blockHash, none)) := by
  obtain ⟨ver, vb, vc, vd, ve⟩ := v
  refine ⟨?_, ?_, ?_, ?_⟩ <;> intro hv <;> subst hv
  · rcases vb with _ |
      ⟨_ | ⟨s, pi, pr, sr, _ | ⟨atts, asl, psl, sag, _ | p⟩⟩, sig⟩ <;>
      simp [VersionedBlockRequest.ExecutionBlockHash,
        VersionedBlockRequest.bellatrixExecPayload,
        VersionedBlockRequest.bellatrixBody,
        VersionedBlockRequest.bellatrixMessage]
  · rcases vc with _ |
      ⟨_ | ⟨s, pi, pr, sr, _ | ⟨atts, asl, psl, sag, _ | p⟩⟩, sig⟩ <;>
      simp [VersionedBlockRequest.ExecutionBlockHash,
        VersionedBlockRequest.capellaExecPayload,
        VersionedBlockRequest.capellaBody,
        VersionedBlockRequest.capellaMessage]
  · rcases vd with _ |
      ⟨_ | ⟨s, pi, pr, sr, _ | ⟨atts, asl, psl, sag, _ | p⟩⟩, sig⟩ <;>
      simp [VersionedBlockRequest.ExecutionBlockHash,
        VersionedBlockRequest.denebExecPayload,
        VersionedBlockRequest.denebBody,
        VersionedBlockRequest.denebMessage]
  · rcases ve with _ |
      ⟨_ | ⟨s, pi, pr, sr, _ | ⟨atts, asl, psl, sag, _ | p⟩⟩, sig⟩ <;>
      simp [VersionedBlockRequest.ExecutionBlockHash,
        VersionedBlockRequest.electraExecPayload,
        VersionedBlockRequest.electraBody,
        VersionedBlockRequest.electraMessage]

/-- Witness for C3: the fully-populated bellatrix sample yields its
execution payload's block hash, and the body-less bellatrix sample yields
the zero hash with DataMissing. -/
theorem execution_block_hash_chain_witness :
    sampleBellatrixRequest.ExecutionBlockHash = (sampleHash, none)
    ∧ sampleBellatrixRequestNoBody.ExecutionBlockHash
        = (zeroHash32, some .errDataMissing) :=
  ⟨((execution_block_hash_chain sampleBellatrixRequest).1 rfl).2
      ⟨sampleHash, 31⟩ rfl,
    ((execution_block_hash_chain sampleBellatrixRequestNoBody).1 rfl).1.mpr
      rfl⟩

/-- C4: for every VersionedBlockRequest with a known version tag, if the
payload slot, its Message, or its Message.Body is nil (the body chain is
`none`), Attestations and AttesterSlashings return `(nil, ErrDataMissing)`
— never an empty sequence; otherwise each returns the element-wise map of
the body's collection, wrapping the i-th source element in a versioned
wrapper carrying the envelope's tag (so length and order are
preserved). -/
theorem attestations_slashings_wrap (v : VersionedBlockRequest) :
    (v.version = .bellatrix →
      (v.bellatrixBody = none →
        v.Attestations = (none, some .errDataMissing)
        ∧ v.AttesterSlashings = (none, some .errDataMissing))
      ∧ ∀ b, v.bellatrixBody = some b →
        v.Attestations = (some (b.attestations.map fun a =>
          { version := .bellatrix, bellatrix := some a }), none)
        ∧ v.AttesterSlashings = (some (b.attesterSlashings.map fun a =>
          { version := .bellatrix, bellatrix := some a }), none))
    ∧ (v.version = .capella →
      (v.capellaBody = none →
        v.Attestations = (none, some .errDataMissing)
        ∧ v.AttesterSlashings = (none, some .errDataMissing))
      ∧ ∀ b, v.capellaBody = some b →
        v.Attestations = (some (b.attestations.map fun a =>
          { version := .capella, capella := some a }), none)
        ∧ v.AttesterSlashings = (some (b.attesterSlashings.map fun a =>
          { version := .capella, capella := some a }), none))
    ∧ (v.version = .deneb →
      (v.denebBody = none →
        v.Attestations = (none, some .errDataMissing)
        ∧ v.AttesterSlashings = (none, some .errDataMissing))
      ∧ ∀ b, v.denebBody = some b →
        v.Attestations = (some (b.attestations.map fun a =>
          { version := .deneb, deneb := some a }), none)
        ∧ v.AttesterSlashings = (some (b.attesterSlashings.map fun a =>
          { version := .deneb, deneb := some a }), none))
    ∧ (v.version = .electra →
      (v.electraBody = none →
        v.Attestations = (none, some .errDataMissing)
        ∧ v.AttesterSlashings = (none, some .errDataMissing))
      ∧ ∀ b, v.electraBody = some b →
        v.Attestations = (some (b.attestations.map fun a =>
          { version := .electra, electra := some a }), none)
        ∧ v.AttesterSlashings = (some (b.attesterSlashings.map fun a =>
          { version := .electra, electra := some a }), none)) := by
  obtain ⟨ver, vb, vc, vd, ve⟩ := v
  refine ⟨?_, ?_, ?_, ?_⟩ <;> intro hv <;> subst hv
  · rcases vb with _ | ⟨_ | ⟨s, pi, pr, sr, _ | b⟩, sig⟩ <;>
      simp [VersionedBlockRequest.Attestations,
        VersionedBlockRequest.AttesterSlashings,
        VersionedBlockRequest.bellatrixBody,
        VersionedBlockRequest.bellatrixMessage]
  · rcases vc with _ | ⟨_ | ⟨s, pi, pr, sr, _ | b⟩, sig⟩ <;>
      simp [VersionedBlockRequest.Attestations,
        VersionedBlockRequest.AttesterSlashings,
        VersionedBlockRequest.capellaBody,
        VersionedBlockRequest.capellaMessage]
  · rcases vd with _ | ⟨_ | ⟨s, pi, pr, sr, _ | b⟩, sig⟩ <;>
      simp [VersionedBlockRequest.Attestations,
        VersionedBlockRequest.AttesterSlashings,
        VersionedBlockRequest.denebBody,
        VersionedBlockRequest.denebMessage]
  · rcases ve with _ | ⟨_ | ⟨s, pi, pr, sr, _ | b⟩, sig⟩ <;>
      simp [VersionedBlockRequest.Attestations,
        VersionedBlockRequest.AttesterSlashings,
        VersionedBlockRequest.electraBody,
        VersionedBlockRequest.electraMessage]

/-- Witness for C4: the populated bellatrix sample yields the element-wise
wrapped attestation and attester-slashing lists in order, and the
body-less bellatrix sample yields DataMissing (not an empty sequence). -/
theorem attestations_slashings_wrap_witness :
    sampleBellatrixRequest.Attestations
      = (some [{ version := .bellatrix, bellatrix := some sampleAtt },
               { version := .bellatrix, bellatrix := some sampleAtt2 }], none)
    ∧ sampleBellatrixRequest.AttesterSlashings
      = (some [{ version := .bellatrix, bellatrix := some ⟨1, 2⟩ },
               { version := .bellatrix, bellatrix := some ⟨3, 4⟩ }], none)
    ∧ sampleBellatrixRequestNoBody.Attestations
      = (none, some .errDataMissing) := by
  obtain ⟨h1, h2⟩ := ((attestations_slashings_wrap sampleBellatrixRequest).1
    rfl).2 sampleBellatrixBody rfl
  obtain ⟨h3, _⟩ := ((attestations_slashings_wrap
    sampleBellatrixRequestNoBody).1 rfl).1 rfl
  exact ⟨h1, h2, h3⟩

/-- C5: provided the payloads' own string representations never collide
with the two sentinel strings, String returns `""` exactly when the tag is
known but the tag's payload slot is nil, returns `"unsupported version"`
exactly when the tag is outside the known set (so the two failure-like
cases are distinguishable), and otherwise delegates to the populated
payload's own string representation. -/
theorem string_form
    (strB : BellatrixSignedBeaconBlock → String)
    (strC : CapellaSignedBeaconBlock → String)
    (strD : DenebSignedBeaconBlock → String)
    (strE : ElectraSignedBeaconBlock → String)
    (v : VersionedBlockRequest)
    (hB : ∀ sb, strB sb ≠ "" ∧ strB sb ≠ "unsupported version")
    (hC : ∀ sb, strC sb ≠ "" ∧ strC sb ≠ "unsupported version")
    (hD : ∀ sb, strD sb ≠ "" ∧ strD sb ≠ "unsupported version")
    (hE : ∀ sb, strE sb ≠ "" ∧ strE sb ≠ "unsupported version") :
    (VersionedBlockRequest.String strB strC strD strE v = ""
      ↔ ((v.version = .bellatrix ∧ v.bellatrix = none)
        ∨ (v.version = .capella ∧ v.capella = none)
        ∨ (v.version = .deneb ∧ v.deneb = none)
        ∨ (v.version = .electra ∧ v.electra = none)))
    ∧ (VersionedBlockRequest.String strB strC strD strE v
        = "unsupported version"
      ↔ (v.version ≠ .bellatrix ∧ v.version ≠ .capella
        ∧ v.version ≠ .deneb ∧ v.version ≠ .electra))
    ∧ (∀ sb, v.version = .bellatrix → v.bellatrix = some sb →
        VersionedBlockRequest.String strB strC strD strE v = strB sb)
    ∧ (∀ sb, v.version = .capella → v.capella = some sb →
        VersionedBlockRequest.String strB strC strD strE v = strC sb)
    ∧ (∀ sb, v.version = .deneb → v.deneb = some sb →
        VersionedBlockRequest.String strB strC strD strE v = strD sb)
    ∧ (∀ sb, v.version = .electra → v.electra = some sb →
        VersionedBlockRequest.String strB strC strD strE v = strE sb) := by
  have hne : ("unsupported version" : String) ≠ "" := by decide
  have hne2 : ("" : String) ≠ "unsupported version" := by decide
  obtain ⟨ver, vb, vc, vd, ve⟩ := v
  cases ver
  case phase0 =>
    exact ⟨by simp [VersionedBlockRequest.String, hne],
      by simp [VersionedBlockRequest.String],
      by simp, by simp, by simp, by simp⟩
  case altair =>
    exact ⟨by simp [VersionedBlockRequest.String, hne],
      by simp [VersionedBlockRequest.String],
      by simp, by simp, by simp, by simp⟩
  case bellatrix =>
    cases vb with
    | none =>
      refine ⟨by simp [VersionedBlockRequest.String],
        by simp [VersionedBlockRequest.String, hne2],
        ?_, by simp, by simp, by simp⟩
      rintro sb - hs
      exact absurd hs (by simp)
    | some sb =>
      obtain ⟨h1, h2⟩ := hB sb
      refine ⟨by simp [VersionedBlockRequest.String, h1],
        by simp [VersionedBlockRequest.String, h2],
        ?_, by simp, by simp, by simp⟩
      rintro sb' - hs
      cases hs
      rfl
  case capella =>
    cases vc with
    | none =>
      refine ⟨by simp [VersionedBlockRequest.String],
        by simp [VersionedBlockRequest.String, hne2],
        by simp, ?_, by simp, by simp⟩
      rintro sb - hs
      exact absurd hs (by simp)
    | some sb =>
      obtain ⟨h1, h2⟩ := hC sb
      refine ⟨by simp [VersionedBlockRequest.String, h1],
        by simp [VersionedBlockRequest.String, h2],
        by simp, ?_, by simp, by simp⟩
      rintro sb' - hs
      cases hs
      rfl
  case deneb =>
    cases vd with
    | none =>
      refine ⟨by simp [VersionedBlockRequest.String],
        by simp [VersionedBlockRequest.String, hne2],
        by simp, by simp, ?_, by simp⟩
      rintro sb - hs
      exact absurd hs (by simp)
    | some sb =>
      obtain ⟨h1, h2⟩ := hD sb
      refine ⟨by simp [VersionedBlockRequest.String, h1],
        by simp [VersionedBlockRequest.String, h2],
        by simp, by simp, ?_, by simp⟩
      rintro sb' - hs
      cases hs
      rfl
  case electra =>
    cases ve with
    | none =>
      refine ⟨by simp [VersionedBlockRequest.String],
        by simp [VersionedBlockRequest.String, hne2],
        by simp, by simp, by simp, ?_⟩
      rintro sb - hs
      exact absurd hs (by simp)
    | some sb =>
      obtain ⟨h1, h2⟩ := hE sb
      refine ⟨by simp [VersionedBlockRequest.String, h1],
        by simp [VersionedBlockRequest.String, h2],
        by simp, by simp, by simp, ?_⟩
      rintro sb' - hs
      cases hs
      rfl

/-- A concrete delegated string representation for witnesses (bellatrix). -/
def strConstB : BellatrixSignedBeaconBlock → String := fun _ => "bellatrix block"

/-- A concrete delegated string representation for witnesses (capella). -/
def strConstC : CapellaSignedBeaconBlock → String := fun _ => "capella block"

/-- A concrete delegated string representation for witnesses (deneb). -/
def strConstD : DenebSignedBeaconBlock → String := fun _ => "deneb block"

/-- A concrete delegated string representation for witnesses (electra). -/
def strConstE : ElectraSignedBeaconBlock → String := fun _ => "electra block"

/-- A bellatrix-tagged envelope whose payload slot is nil. -/
def sampleBellatrixRequestNilPayload : VersionedBlockRequest :=
  { version := .bellatrix }

/-- Witness for C5: at concrete inputs the three cases produce and
distinguish `"unsupported version"`, the delegated representation, and
`""`. -/
theorem string_form_witness :
    VersionedBlockRequest.String strConstB strConstC strConstD strConstE
      samplePhase0Request = "unsupported version"
    ∧ VersionedBlockRequest.String strConstB strConstC strConstD strConstE
      sampleBellatrixRequest = "bellatrix block"
    ∧ VersionedBlockRequest.String strConstB strConstC strConstD strConstE
      sampleBellatrixRequestNilPayload = "" := by
  have hB : ∀ sb, strConstB sb ≠ "" ∧ strConstB sb ≠ "unsupported version" :=
    fun _ => ⟨by simp [strConstB], by simp [strConstB]⟩
  have hC : ∀ sb, strConstC sb ≠ "" ∧ strConstC sb ≠ "unsupported version" :=
    fun _ => ⟨by simp [strConstC], by simp [strConstC]⟩
  have hD : ∀ sb, strConstD sb ≠ "" ∧ strConstD sb ≠ "unsupported version" :=
    fun _ => ⟨by simp [strConstD], by simp [strConstD]⟩
  have hE : ∀ sb, strConstE sb ≠ "" ∧ strConstE sb ≠ "unsupported version" :=
    fun _ => ⟨by simp [strConstE], by simp [strConstE]⟩
  refine ⟨(string_form strConstB strConstC strConstD strConstE
      samplePhase0Request hB hC hD hE).2.1.mpr
      ⟨by decide, by decide, by decide, by decide⟩,
    (string_form strConstB strConstC strConstD strConstE
      sampleBellatrixRequest hB hC hD hE).2.2.1
      sampleBellatrixSigned rfl rfl,
    (string_form strConstB strConstC strConstD strConstE
      sampleBellatrixRequestNilPayload hB hC hD hE).1.mpr
      (Or.inl ⟨rfl, rfl⟩)⟩

/-- C10: for every VersionedBlockRequest with a known tag whose payload,
Message and Message.Body are all present, SyncAggregate returns the body's
sync-aggregate pointer and ProposerSlashings the body's proposer-slashing
slice as-is with nil error — even when that sub-field is itself nil, the
result is a nil value with success, not DataMissing. -/
theorem sync_aggregate_proposer_slashings_as_is (v : VersionedBlockRequest) :
    (v.version = .bellatrix → ∀ b, v.bellatrixBody = some b →
      v.SyncAggregate = (b.syncAggregate, none)
      ∧ v.ProposerSlashings = (b.proposerSlashings, none))
    ∧ (v.version = .capella → ∀ b, v.capellaBody = some b →
      v.SyncAggregate = (b.syncAggregate, none)
      ∧ v.ProposerSlashings = (b.proposerSlashings, none))
    ∧ (v.version = .deneb → ∀ b, v.denebBody = some b →
      v.SyncAggregate = (b.syncAggregate, none)
      ∧ v.ProposerSlashings = (b.proposerSlashings, none))
    ∧ (v.version = .electra → ∀ b, v.electraBody = some b →
      v.SyncAggregate = (b.syncAggregate, none)
      ∧ v.ProposerSlashings = (b.proposerSlashings, none)) := by
  obtain ⟨ver, vb, vc, vd, ve⟩ := v
  refine ⟨?_, ?_, ?_, ?_⟩ <;> intro hv <;> subst hv
  · rcases vb with _ | ⟨_ | ⟨s, pi, pr, sr, _ | b⟩, sig⟩ <;>
      simp [VersionedBlockRequest.SyncAggregate,
        VersionedBlockRequest.ProposerSlashings,
        VersionedBlockRequest.bellatrixBody,
        VersionedBlockRequest.bellatrixMessage]
  · rcases vc with _ | ⟨_ | ⟨s, pi, pr, sr, _ | b⟩, sig⟩ <;>
      simp [VersionedBlockRequest.SyncAggregate,
        VersionedBlockRequest.ProposerSlashings,
        VersionedBlockRequest.capellaBody,
        VersionedBlockRequest.capellaMessage]
  · rcases vd with _ | ⟨_ | ⟨s, pi, pr, sr, _ | b⟩, sig⟩ <;>
      simp [VersionedBlockRequest.SyncAggregate,
        VersionedBlockRequest.ProposerSlashings,
        VersionedBlockRequest.denebBody,
        VersionedBlockRequest.denebMessage]
  · rcases ve with _ | ⟨_ | ⟨s, pi, pr, sr, _ | b⟩, sig⟩ <;>
      simp [VersionedBlockRequest.SyncAggregate,
        VersionedBlockRequest.ProposerSlashings,
        VersionedBlockRequest.electraBody,
        VersionedBlockRequest.electraMessage]

/-- Witness for C10: the electra sample whose body is present but whose
sync aggregate and proposer-slashing slice are absent yields
`(nil, nil error)` for both accessors — success, not DataMissing. -/
theorem sync_aggregate_proposer_slashings_as_is_witness :
    sampleElectraRequestNilSub.SyncAggregate = (none, none)
    ∧ sampleElectraRequestNilSub.ProposerSlashings = (none, none) :=
  (sync_aggregate_proposer_slashings_as_is
    sampleElectraRequestNilSub).2.2.2 rfl sampleElectraBodyNilSub rfl

/-- Replacing every double-quote byte leaves no double-quote byte. -/
theorem doubleQuote_not_mem_replaceAllByte (bs : Bytes) :
    doubleQuoteByte ∉ replaceAllByte bs doubleQuoteByte singleQuoteByte := by
  intro h
  simp only [replaceAllByte, List.mem_map] at h
  obtain ⟨c, _, heq⟩ := h
  by_cases h34 : c = doubleQuoteByte
  · rw [if_pos h34] at heq
    exact absurd heq (by decide)
  · rw [if_neg h34] at heq
    exact h34 heq

/-- C7: MarshalYAML serializes the {block, kzg proofs, blobs} intermediate
with the flow (inline) option set and then replaces every double-quote
byte with a single-quote byte: the result is exactly the byte-map of the
serializer's output (so the substitution step cannot fail), a successful
output contains no double-quote byte, and a serializer error is returned
unchanged. -/
theorem marshal_yaml_flow_quote_replacement
    (yamlMar : Bool → blockContentsYAML → Except String Bytes)
    (b : BlockContents) :
    BlockContents.MarshalYAML yamlMar b
      = (yamlMar true
          { block := b.block, kzgProofs := b.kzgProofs, blobs := b.blobs }).map
          (fun bs => replaceAllByte bs doubleQuoteByte singleQuoteByte)
    ∧ (∀ bs, BlockContents.MarshalYAML yamlMar b = .ok bs →
        doubleQuoteByte ∉ bs)
    ∧ (∀ e, yamlMar true
          { block := b.block, kzgProofs := b.kzgProofs, blobs := b.blobs }
          = .error e →
        BlockContents.MarshalYAML yamlMar b = .error e) := by
  cases hm : yamlMar true
      { block := b.block, kzgProofs := b.kzgProofs, blobs := b.blobs } with
  | error e =>
    refine ⟨by simp [BlockContents.MarshalYAML, hm, Except.map], ?_, ?_⟩
    · intro bs h
      simp [BlockContents.MarshalYAML, hm] at h
    · intro e' he
      injection he with h
      subst h
      simp [BlockContents.MarshalYAML, hm]
  | ok bs =>
    refine ⟨by simp [BlockContents.MarshalYAML, hm, Except.map], ?_, ?_⟩
    · intro bs' h
      simp only [BlockContents.MarshalYAML, hm, Except.ok.injEq] at h
      rw [← h]
      exact doubleQuote_not_mem_replaceAllByte bs
    · intro e' he
      simp at he

/-- A concrete external YAML serializer for witnesses: always emits a
double-quoted token. -/
def yamlMarConst : Bool → blockContentsYAML → Except String Bytes :=
  fun _ _ => .ok [doubleQuoteByte, 100, doubleQuoteByte]

/-- A sample composite record. -/
def sampleBlockContents : BlockContents :=
  { block := none, kzgProofs := [⟨[1, 2]⟩], blobs := [⟨[3]⟩] }

/-- Witness for C7: the double-quoted serializer output comes back
single-quoted, and contains no double-quote byte. -/
theorem marshal_yaml_flow_quote_replacement_witness :
    BlockContents.MarshalYAML yamlMarConst sampleBlockContents
      = .ok [singleQuoteByte, 100, singleQuoteByte]
    ∧ doubleQuoteByte ∉ ([singleQuoteByte, 100, singleQuoteByte] : Bytes) := by
  have h : BlockContents.MarshalYAML yamlMarConst sampleBlockContents
      = .ok [singleQuoteByte, 100, singleQuoteByte] := rfl
  exact ⟨h, (marshal_yaml_flow_quote_replacement yamlMarConst
    sampleBlockContents).2.1 [singleQuoteByte, 100, singleQuoteByte] h⟩

/-- C8: UnmarshalYAML parses the input into the compact format's
intermediate structure, re-serializes it to JSON, and hands the result to
UnmarshalJSON: a parse failure is wrapped with "failed to unmarshal YAML",
a re-encode failure with "failed to marshal JSON", and the final JSON
decode's result is returned exactly as UnmarshalJSON produced it. -/
theorem unmarshal_yaml_stages
    (yamlUn : Bytes → Except String blockContentsJSON)
    (jsonMar : blockContentsJSON → Except String Bytes)
    (unJSON : Bytes → Except String BlockContents)
    (input : Bytes) :
    (∀ e, yamlUn input = .error e →
      BlockContents.UnmarshalYAML yamlUn jsonMar unJSON input
        = .error ("failed to unmarshal YAML: " ++ e))
    ∧ (∀ j e, yamlUn input = .ok j → jsonMar j = .error e →
      BlockContents.UnmarshalYAML yamlUn jsonMar unJSON input
        = .error ("failed to marshal JSON: " ++ e))
    ∧ (∀ j m, yamlUn input = .ok j → jsonMar j = .ok m →
      BlockContents.UnmarshalYAML yamlUn jsonMar unJSON input
        = unJSON m) := by
  refine ⟨?_, ?_, ?_⟩
  · intro e he
    simp [BlockContents.UnmarshalYAML, he, wrapErr]
  · intro j e hj he
    simp [BlockContents.UnmarshalYAML, hj, he, wrapErr]
  · intro j m hj hm
    simp [BlockContents.UnmarshalYAML, hj, hm]

/-- The intermediate value used by the codec witnesses. -/
def sampleIntermediateJSON : blockContentsJSON :=
  { block := none, kzgProofs := [⟨[1, 2]⟩], blobs := [⟨[3]⟩] }

/-- A concrete external YAML parser for witnesses: accepts only the
single-quoted token `[39, 7, 39]`. -/
def yamlUnTable : Bytes → Except String blockContentsJSON :=
  fun bs => if bs = [singleQuoteByte, 7, singleQuoteByte]
    then .ok sampleIntermediateJSON else .error "bad yaml"

/-- A concrete external JSON serializer for witnesses. -/
def jsonMarTable : blockContentsJSON → Except String Bytes :=
  fun j => if j = sampleIntermediateJSON then .ok [2] else .error "bad struct"

/-- A concrete external UnmarshalJSON for witnesses. -/
def unJSONTable : Bytes → Except String BlockContents :=
  fun bs => if bs = [2] then .ok sampleBlockContents else .error "bad json"

/-- Witness for C8: a failing parse surfaces the wrapped stage label, and
a successful two-hop decode returns UnmarshalJSON's result as produced. -/
theorem unmarshal_yaml_stages_witness :
    BlockContents.UnmarshalYAML yamlUnTable jsonMarTable unJSONTable [9]
      = .error ("failed to unmarshal YAML: " ++ "bad yaml")
    ∧ BlockContents.UnmarshalYAML yamlUnTable jsonMarTable unJSONTable
        [singleQuoteByte, 7, singleQuoteByte] = .ok sampleBlockContents := by
  refine ⟨(unmarshal_yaml_stages yamlUnTable jsonMarTable unJSONTable
      [9]).1 "bad yaml" rfl, ?_⟩
  have h := (unmarshal_yaml_stages yamlUnTable jsonMarTable unJSONTable
    [singleQuoteByte, 7, singleQuoteByte]).2.2 sampleIntermediateJSON [2]
    rfl rfl
  rw [h]
  rfl

/-- A concrete external YAML serializer for the round-trip witness:
accepts exactly the sample intermediate and emits a double-quoted
token. -/
def yamlMarTable : Bool → blockContentsYAML → Except String Bytes :=
  fun _ y =>
    if y = { block := none, kzgProofs := [⟨[1, 2]⟩], blobs := [⟨[3]⟩] }
    then .ok [doubleQuoteByte, 7, doubleQuoteByte] else .error "bad struct"

/-- C6: the verbose round trip is lossless: whenever the external YAML
serializer succeeds on the record's intermediate, the external YAML parser
recovers the compact intermediate from the quote-replaced output (the
quoting transformation is reversible at the parser), and the compact
(JSON) codec round-trips, MarshalYAML succeeds and UnmarshalYAML on its
output returns a BlockContents deep-equal to the original. -/
theorem marshal_unmarshal_yaml_roundtrip
    (yamlMar : Bool → blockContentsYAML → Except String Bytes)
    (yamlUn : Bytes → Except String blockContentsJSON)
    (jsonMar : blockContentsJSON → Except String Bytes)
    (unJSON : Bytes → Except String BlockContents)
    (b : BlockContents) (ybs jbs : Bytes) (j : blockContentsJSON)
    (hser : yamlMar true
      { block := b.block, kzgProofs := b.kzgProofs, blobs := b.blobs }
      = .ok ybs)
    (hparse : yamlUn (replaceAllByte ybs doubleQuoteByte singleQuoteByte)
      = .ok j)
    (hjson : jsonMar j = .ok jbs)
    (hdecode : unJSON jbs = .ok b) :
    ∃ out, BlockContents.MarshalYAML yamlMar b = .ok out
      ∧ BlockContents.UnmarshalYAML yamlUn jsonMar unJSON out = .ok b := by
  refine ⟨replaceAllByte ybs doubleQuoteByte singleQuoteByte, ?_, ?_⟩
  · simp [BlockContents.MarshalYAML, hser]
  · simp [BlockContents.UnmarshalYAML, hparse, hjson, hdecode]

/-- Witness for C6 at the concrete sample and table codecs: the emitted
double-quoted token round-trips through the single-quote substitution and
the two-hop decode back to the original record. -/
theorem marshal_unmarshal_yaml_roundtrip_witness :
    ∃ out, BlockContents.MarshalYAML yamlMarTable sampleBlockContents
        = .ok out
      ∧ BlockContents.UnmarshalYAML yamlUnTable jsonMarTable unJSONTable out
        = .ok sampleBlockContents :=
  marshal_unmarshal_yaml_roundtrip yamlMarTable yamlUnTable jsonMarTable
    unJSONTable sampleBlockContents
    [doubleQuoteByte, 7, doubleQuoteByte] [2] sampleIntermediateJSON
    rfl rfl rfl rfl

/-- C9 counterexample: the three field tags of blockContentsYAML are not
`["block", "kzg proofs", "blobs"]` — the proof key carries an underscore,
not a space. -/
theorem blockContentsYAML_keys_not_spaced :
    blockContentsYAMLKeys ≠ ["block", "kzg proofs", "blobs"] := by
  decide

/-- C9 (amended): the verbose-format intermediate structure carries
exactly the three top-level field tags `block`, `kzg_proofs` and
`blobs`, in declaration order. -/
theorem blockContentsYAML_keys_exact :
    blockContentsYAMLKeys = ["block", "kzg_proofs", "blobs"] := rfl

end GoEth2
